import Mathlib

/-!
Verification of the dual-store memory manager facade
(`dual_store_memory_example.py`).

The facade (`DualStoreMemoryManager`) holds a structured key-value store
(`regular_store`) and an optional semantic search store (`semantic_store`).
Stores are external collaborators with `put(namespace, key, value)` and
`get(namespace, key)` / `search(namespace, query, limit)` operations.

Embedding choices:
- Python values (dicts, lists, strings, `None`) are modelled by the
  inductive `Value`.
- A store's state is its history of `put` calls, newest first
  (`List PutEntry`); `storeGet` returns the value of the most recent
  `put` under the same namespace and key, which is the assumed contract
  of the underlying key-value store.
- The semantic store's `search` is an opaque oracle: a function of the
  store contents, the namespace, the query and the limit, returning
  results that each expose a `value` field.
- The read methods (`get_user_preferences`, `search_similar_conversations`,
  `get_context_for_response`) only call `get`/`search` in the source, so
  they are embedded as pure functions of the facade state; the write
  methods return the updated facade state.
-/

/-- Model of a Python value: `None`, a string, a list, or a string-keyed
dict (association list, first binding wins as in a Python dict). -/
inductive Value where
  | none
  | str (s : String)
  | list (xs : List Value)
  | dict (entries : List (String × Value))

/-- A single quote character, used by Python `repr` of strings. -/
def pyQuote (s : String) : String :=
  String.singleton (Char.ofNat 39) ++ s ++ String.singleton (Char.ofNat 39)

mutual

/-- Python `repr` of a value (as used by `str` on containers). -/
def pyRepr : Value → String
  | .none => "None"
  | .str s => pyQuote s
  | .list xs => "[" ++ pyReprList xs ++ "]"
  | .dict es => "\x7b" ++ pyReprDict es ++ "\x7d"

/-- Comma-separated `repr`s of the elements of a Python list. -/
def pyReprList : List Value → String
  | [] => ""
  | [x] => pyRepr x
  | x :: xs => pyRepr x ++ ", " ++ pyReprList xs

/-- Comma-separated `key: value` pairs of a Python dict `repr`. -/
def pyReprDict : List (String × Value) → String
  | [] => ""
  | [(k, v)] => pyQuote k ++ ": " ++ pyRepr v
  | (k, v) :: es => pyQuote k ++ ": " ++ pyRepr v ++ ", " ++ pyReprDict es

end

/-- Python `str()` of a value, the conversion an f-string applies. -/
def pyStr : Value → String
  | .str s => s
  | v => pyRepr v

/-- Python `dict.get(k, d)`: the value bound to `k` if the key is
present (even when that value is `None`), else the default `d`. -/
def dictGet (c : List (String × Value)) (k : String) (d : Value) : Value :=
  match c.find? (fun e => e.1 == k) with
  | some e => e.2
  | Option.none => d

/-- One `put(namespace, key, value)` call recorded in a store. -/
structure PutEntry where
  ns : List String
  key : String
  value : Value

/-- A key-value store's state: its `put` history, newest first. -/
abbrev StoreState := List PutEntry

/-- `store.put(namespace, key, value)`: record the write. -/
def storePut (s : StoreState) (ns : List String) (key : String) (v : Value) : StoreState :=
  { ns := ns, key := key, value := v } :: s

/-- `store.get(namespace, key)`: the value of the most recent `put`
under the same namespace and key, `none` if there was none. -/
def storeGet (s : StoreState) (ns : List String) (key : String) : Option Value :=
  match s.find? (fun e => e.ns == ns && e.key == key) with
  | some e => some e.value
  | Option.none => Option.none

/-- One result of a semantic `search`, exposing a `value` field. -/
structure SearchResult where
  value : Value

/-- The semantic store: its `put` history plus an opaque `search`
oracle depending on the store contents, namespace, query and limit. -/
structure SemanticStore where
  puts : StoreState
  search : StoreState → List String → String → Nat → List SearchResult

/-- The facade: a structured store and an optional semantic store,
as set up by `DualStoreMemoryManager.__init__`. -/
structure DualStoreMemoryManager where
  regular_store : StoreState
  semantic_store : Option SemanticStore

/-- `store_user_preferences`: put `preferences` under namespace
`["user_data", assistant_id]`, key `"preferences"`, in the regular store. -/
def store_user_preferences (m : DualStoreMemoryManager) (assistant_id : String)
    (preferences : Value) : DualStoreMemoryManager :=
  { m with regular_store :=
      storePut m.regular_store ["user_data", assistant_id] "preferences" preferences }

/-- `get_user_preferences`: read the same namespaced key; the stored
value if the item exists, else the empty dict. -/
def get_user_preferences (m : DualStoreMemoryManager) (assistant_id : String) : Value :=
  match storeGet m.regular_store ["user_data", assistant_id] "preferences" with
  | some v => v
  | Option.none => Value.dict []

/-- `store_conversation_for_search`: no-op without a semantic store;
otherwise build `semantic_data` from the conversation's `text`, `topics`,
`timestamp` and `sentiment` fields (with the source's defaults) and put
it under namespace `["conversations", assistant_id]`, key
`"conv_" + str(conversation.get("id", "unknown"))`. -/
def store_conversation_for_search (m : DualStoreMemoryManager) (assistant_id : String)
    (conversation : List (String × Value)) : DualStoreMemoryManager :=
  match m.semantic_store with
  | Option.none => m
  | some s =>
    let semantic_data : Value := Value.dict
      [("text", dictGet conversation "text" (Value.str "")),
       ("topics", dictGet conversation "topics" (Value.list [])),
       ("timestamp", dictGet conversation "timestamp" Value.none),
       ("sentiment", dictGet conversation "sentiment" (Value.str "neutral"))]
    let convKey : String :=
      "conv_" ++ pyStr (dictGet conversation "id" (Value.str "unknown"))
    let s2 : SemanticStore :=
      { s with puts := storePut s.puts ["conversations", assistant_id] convKey semantic_data }
    { m with semantic_store := some s2 }

/-- `search_similar_conversations`: empty without a semantic store;
otherwise the `value` fields of the store's search results for namespace
`["conversations", assistant_id]`, the query and the limit (the source's
default limit is 3). -/
def search_similar_conversations (m : DualStoreMemoryManager) (assistant_id : String)
    (query : String) (limit : Nat) : List Value :=
  match m.semantic_store with
  | Option.none => []
  | some s =>
    (s.search s.puts ["conversations", assistant_id] query limit).map SearchResult.value

/-- The dict returned by `get_context_for_response`. -/
structure ContextBundle where
  user_preferences : Value
  relevant_conversations : List Value
  query : String

/-- `get_context_for_response`: preferences from the regular store,
similar conversations (limit 2) when a semantic store exists, and the
query, bundled together. -/
def get_context_for_response (m : DualStoreMemoryManager) (assistant_id : String)
    (user_query : String) : ContextBundle :=
  let preferences := get_user_preferences m assistant_id
  let similar_conversations :=
    match m.semantic_store with
    | Option.none => []
    | some _ => search_similar_conversations m assistant_id user_query 2
  { user_preferences := preferences,
    relevant_conversations := similar_conversations,
    query := user_query }

/-- A facade with an empty regular store and no semantic store. -/
def emptyManager : DualStoreMemoryManager :=
  { regular_store := [], semantic_store := Option.none }

/-- A search oracle returning no results. -/
def emptySearch : StoreState → List String → String → Nat → List SearchResult :=
  fun _ _ _ _ => []

/-- A facade with empty stores and the empty search oracle. -/
def semManager : DualStoreMemoryManager :=
  { regular_store := [], semantic_store := some { puts := [], search := emptySearch } }

example : get_user_preferences (store_user_preferences emptyManager "e1"
    (Value.dict [("theme", Value.str "dark")])) "e1" =
    Value.dict [("theme", Value.str "dark")] := rfl

example : get_user_preferences emptyManager "e1" = Value.dict [] := rfl

example : search_similar_conversations emptyManager "e1" "q" 3 = [] := rfl

/-- Reads under a namespace-and-key pair different in namespace from a
newly put entry are unaffected by that put. -/
theorem storeGet_cons_of_ne (e : PutEntry) (s : StoreState) (ns : List String) (k : String)
    (h : ns ≠ e.ns) : storeGet (e :: s) ns k = storeGet s ns k := by
  have hb : (e.ns == ns) = false := beq_eq_false_iff_ne.mpr (fun hh => h hh.symm)
  simp [storeGet, List.find?, hb]

/-- Claim C1: after `store_user_preferences` on an entity id, `get_user_preferences`
on the same entity id returns exactly the stored preferences mapping (the
underlying store's `get` returning the last `put` under the same namespace
and key is how the store model is built). -/
theorem get_after_store_returns_stored (m : DualStoreMemoryManager) (aid : String)
    (p : Value) :
    get_user_preferences (store_user_preferences m aid p) aid = p := by
  simp [get_user_preferences, store_user_preferences, storeGet, storePut, List.find?]

/-- Claim C2: with no semantic store configured, `store_conversation_for_search`
leaves the facade unchanged (no store call, returns nothing) and
`search_similar_conversations` returns the empty list, for every input. -/
theorem no_semantic_store_is_noop (m : DualStoreMemoryManager) (aid q : String)
    (c : List (String × Value)) (lim : Nat) (h : m.semantic_store = Option.none) :
    store_conversation_for_search m aid c = m ∧
    search_similar_conversations m aid q lim = [] := by
  constructor <;> simp [store_conversation_for_search, search_similar_conversations, h]

/-- Witness for claim C2 at a concrete facade and inputs. -/
theorem no_semantic_store_is_noop_witness :
    store_conversation_for_search emptyManager "e1" [("text", Value.str "hi")] = emptyManager ∧
    search_similar_conversations emptyManager "e1" "anything" 3 = [] :=
  no_semantic_store_is_noop emptyManager "e1" "anything" [("text", Value.str "hi")] 3 rfl

/-- Claim C3: `get_context_for_response` returns a bundle whose `query` field
is the input query and whose `relevant_conversations` has length at most 2,
assuming the semantic store's search with limit 2 returns at most 2 results. -/
theorem context_query_and_limit (m : DualStoreMemoryManager) (aid q : String)
    (h : ∀ s, m.semantic_store = some s →
      (s.search s.puts ["conversations", aid] q 2).length ≤ 2) :
    (get_context_for_response m aid q).query = q ∧
    (get_context_for_response m aid q).relevant_conversations.length ≤ 2 := by
  cases hm : m.semantic_store with
  | none => simp [get_context_for_response, hm]
  | some s =>
    refine ⟨rfl, ?_⟩
    simpa [get_context_for_response, search_similar_conversations, hm] using h s hm

/-- Witness for claim C3 at a concrete facade with a semantic store. -/
theorem context_query_and_limit_witness :
    (get_context_for_response semManager "e1" "hello").query = "hello" ∧
    (get_context_for_response semManager "e1" "hello").relevant_conversations.length ≤ 2 :=
  context_query_and_limit semManager "e1" "hello"
    (by intro s hs; obtain rfl := Option.some.inj hs; simp [emptySearch])

/-- Claim C5: when the regular store holds no record under
`["user_data", entityId]` and key `"preferences"`, `get_user_preferences`
returns the empty mapping. -/
theorem absent_preferences_empty_dict (m : DualStoreMemoryManager) (aid : String)
    (h : storeGet m.regular_store ["user_data", aid] "preferences" = Option.none) :
    get_user_preferences m aid = Value.dict [] := by
  simp [get_user_preferences, h]

/-- Witness for claim C5 at a facade with an empty regular store. -/
theorem absent_preferences_empty_dict_witness :
    get_user_preferences emptyManager "e1" = Value.dict [] :=
  absent_preferences_empty_dict emptyManager "e1" rfl

/-- Claim C4 counterexample: two `store_user_preferences` calls for the same
entity id write to the same namespace-and-key pair
`(["user_data", "e1"], "preferences")`, and the second call overwrites the
record the first created, as `get_user_preferences` observes. -/
theorem repeated_writes_same_pair_counterexample :
    ((store_user_preferences (store_user_preferences emptyManager "e1"
        (Value.dict [("theme", Value.str "dark")])) "e1"
        (Value.dict [("theme", Value.str "light")])).regular_store.map
      (fun e => (e.ns, e.key))) =
      [(["user_data", "e1"], "preferences"), (["user_data", "e1"], "preferences")] ∧
    get_user_preferences (store_user_preferences emptyManager "e1"
        (Value.dict [("theme", Value.str "dark")])) "e1" =
      Value.dict [("theme", Value.str "dark")] ∧
    get_user_preferences (store_user_preferences (store_user_preferences emptyManager "e1"
        (Value.dict [("theme", Value.str "dark")])) "e1"
        (Value.dict [("theme", Value.str "light")])) "e1" =
      Value.dict [("theme", Value.str "light")] :=
  ⟨rfl, rfl, rfl⟩

/-- Claim C4 (amended): each facade write appends exactly one new entry to
the target store's history, leaving every previously written entry intact,
and the entry's namespace names the entity id; but the namespace-and-key
pair is a function of the entity id (and conversation id), so repeated
calls with the same ids address the same pair and overwrite the visible
record rather than creating a new key. -/
theorem writes_append_single_entry (m : DualStoreMemoryManager) (aid : String)
    (p : Value) (c : List (String × Value)) (s : SemanticStore)
    (hs : m.semantic_store = some s) :
    (∃ e, (store_user_preferences m aid p).regular_store = e :: m.regular_store ∧
      e.ns = ["user_data", aid] ∧ e.key = "preferences" ∧ e.value = p) ∧
    (∃ e t, (store_conversation_for_search m aid c).semantic_store = some t ∧
      t.puts = e :: s.puts ∧ e.ns = ["conversations", aid] ∧
      e.key = "conv_" ++ pyStr (dictGet c "id" (Value.str "unknown"))) := by
  constructor
  · exact ⟨_, rfl, rfl, rfl, rfl⟩
  · simp only [store_conversation_for_search, hs]
    exact ⟨_, _, rfl, rfl, rfl, rfl⟩

/-- Witness for amended claim C4 at a concrete facade and inputs. -/
theorem writes_append_single_entry_witness :
    (∃ e, (store_user_preferences semManager "e1"
        (Value.dict [("theme", Value.str "dark")])).regular_store =
        e :: semManager.regular_store ∧
      e.ns = ["user_data", "e1"] ∧ e.key = "preferences" ∧
      e.value = Value.dict [("theme", Value.str "dark")]) ∧
    (∃ e t, (store_conversation_for_search semManager "e1"
        [("id", Value.str "c1")]).semantic_store = some t ∧
      t.puts = e :: [] ∧ e.ns = ["conversations", "e1"] ∧
      e.key = "conv_" ++ pyStr (dictGet [("id", Value.str "c1")] "id" (Value.str "unknown"))) :=
  writes_append_single_entry semManager "e1" (Value.dict [("theme", Value.str "dark")])
    [("id", Value.str "c1")] { puts := [], search := emptySearch } rfl

/-- Claim C6: with a semantic store configured, `store_conversation_for_search`
writes exactly one record, under namespace `["conversations", entityId]` and
key `"conv_" + id` (id defaulting to `"unknown"`), whose value is the dict
built from the conversation's `text` (default `""`), `topics` (default `[]`),
`timestamp` (no default, stored as `None` when absent) and `sentiment`
(default `"neutral"`) fields; the regular store and the search oracle are
untouched. -/
theorem conversation_write_shape (m : DualStoreMemoryManager) (aid : String)
    (c : List (String × Value)) (s : SemanticStore) (hs : m.semantic_store = some s) :
    (store_conversation_for_search m aid c).regular_store = m.regular_store ∧
    (∃ t, (store_conversation_for_search m aid c).semantic_store = some t ∧
      t.search = s.search ∧
      t.puts = PutEntry.mk ["conversations", aid]
        ("conv_" ++ pyStr (dictGet c "id" (Value.str "unknown")))
        (Value.dict [("text", dictGet c "text" (Value.str "")),
          ("topics", dictGet c "topics" (Value.list [])),
          ("timestamp", dictGet c "timestamp" Value.none),
          ("sentiment", dictGet c "sentiment" (Value.str "neutral"))]) :: s.puts) := by
  constructor
  · simp [store_conversation_for_search, hs]
  · simp only [store_conversation_for_search, hs]
    exact ⟨_, rfl, rfl, rfl⟩

/-- Witness for claim C6 at a concrete facade and conversation. -/
theorem conversation_write_shape_witness :
    (store_conversation_for_search semManager "e1"
      [("id", Value.str "c1"), ("text", Value.str "hi")]).regular_store =
      semManager.regular_store ∧
    (∃ t, (store_conversation_for_search semManager "e1"
        [("id", Value.str "c1"), ("text", Value.str "hi")]).semantic_store = some t ∧
      t.search = emptySearch ∧
      t.puts = PutEntry.mk ["conversations", "e1"]
        ("conv_" ++ pyStr (dictGet [("id", Value.str "c1"), ("text", Value.str "hi")]
          "id" (Value.str "unknown")))
        (Value.dict [("text", dictGet [("id", Value.str "c1"), ("text", Value.str "hi")]
            "text" (Value.str "")),
          ("topics", Value.list []), ("timestamp", Value.none),
          ("sentiment", Value.str "neutral")]) :: []) :=
  conversation_write_shape semManager "e1" [("id", Value.str "c1"), ("text", Value.str "hi")]
    { puts := [], search := emptySearch } rfl

/-- Claim C7: with a semantic store configured, `search_similar_conversations`
returns exactly the `value` fields, in order, of the store's search results
for namespace `["conversations", entityId]` and the given limit; when the
underlying search returns at most `limit` results, so does the facade. -/
theorem search_projects_values (m : DualStoreMemoryManager) (aid q : String)
    (lim : Nat) (s : SemanticStore) (hs : m.semantic_store = some s)
    (hlen : (s.search s.puts ["conversations", aid] q lim).length ≤ lim) :
    search_similar_conversations m aid q lim =
      (s.search s.puts ["conversations", aid] q lim).map SearchResult.value ∧
    (search_similar_conversations m aid q lim).length ≤ lim := by
  have heq : search_similar_conversations m aid q lim =
      (s.search s.puts ["conversations", aid] q lim).map SearchResult.value := by
    simp [search_similar_conversations, hs]
  exact ⟨heq, by simpa [heq] using hlen⟩

/-- Witness for claim C7 at a concrete facade whose search returns nothing. -/
theorem search_projects_values_witness :
    search_similar_conversations semManager "e1" "q" 3 =
      (emptySearch [] ["conversations", "e1"] "q" 3).map SearchResult.value ∧
    (search_similar_conversations semManager "e1" "q" 3).length ≤ 3 :=
  search_projects_values semManager "e1" "q" 3 { puts := [], search := emptySearch } rfl
    (by simp [emptySearch])

/-- Claim C8: for every facade configuration, `get_context_for_response` is
exactly the sequencing of `get_user_preferences` and
`search_similar_conversations` with limit 2, together with the query. -/
theorem context_is_pure_sequencing (m : DualStoreMemoryManager) (aid q : String) :
    get_context_for_response m aid q =
      ⟨get_user_preferences m aid, search_similar_conversations m aid q 2, q⟩ := by
  cases hm : m.semantic_store <;>
    simp [get_context_for_response, search_similar_conversations, hm]

/-- Claim C9: a facade write for an entity id touches only namespaces ending
in that id: for any namespace not ending in the id (any other key-value
location), `store_user_preferences` leaves regular-store reads unchanged and
the semantic store untouched, and `store_conversation_for_search` leaves the
regular store untouched and semantic-store reads unchanged. The read
operations are embedded as pure functions of the facade state — in the
source they only call `get`/`search` — so they perform no writes at all. -/
theorem writes_frame_other_namespaces (m : DualStoreMemoryManager) (aid : String)
    (p : Value) (c : List (String × Value)) (ns : List String) (k : String)
    (h : ns.getLast? ≠ some aid) :
    storeGet (store_user_preferences m aid p).regular_store ns k =
      storeGet m.regular_store ns k ∧
    (store_user_preferences m aid p).semantic_store = m.semantic_store ∧
    (store_conversation_for_search m aid c).regular_store = m.regular_store ∧
    (store_conversation_for_search m aid c).semantic_store.map
        (fun t => storeGet t.puts ns k) =
      m.semantic_store.map (fun t => storeGet t.puts ns k) := by
  have h1 : ns ≠ ["user_data", aid] := by rintro rfl; simp at h
  have h2 : ns ≠ ["conversations", aid] := by rintro rfl; simp at h
  refine ⟨storeGet_cons_of_ne _ _ _ _ h1, rfl, ?_, ?_⟩
  · cases hm : m.semantic_store <;> simp [store_conversation_for_search, hm]
  · cases hm : m.semantic_store with
    | none => simp [store_conversation_for_search, hm]
    | some s =>
      simp only [store_conversation_for_search, hm, Option.map_some']
      exact congrArg some (storeGet_cons_of_ne _ _ _ _ h2)

/-- Witness for claim C9: a write for entity "e1" leaves the location
`(["user_data", "e2"], "preferences")` unchanged. -/
theorem writes_frame_other_namespaces_witness :
    storeGet (store_user_preferences semManager "e1"
        (Value.dict [("theme", Value.str "dark")])).regular_store
      ["user_data", "e2"] "preferences" =
      storeGet semManager.regular_store ["user_data", "e2"] "preferences" ∧
    (store_user_preferences semManager "e1"
        (Value.dict [("theme", Value.str "dark")])).semantic_store =
      semManager.semantic_store ∧
    (store_conversation_for_search semManager "e1"
        [("id", Value.str "c1")]).regular_store = semManager.regular_store ∧
    (store_conversation_for_search semManager "e1"
        [("id", Value.str "c1")]).semantic_store.map
        (fun t => storeGet t.puts ["user_data", "e2"] "preferences") =
      semManager.semantic_store.map
        (fun t => storeGet t.puts ["user_data", "e2"] "preferences") :=
  writes_frame_other_namespaces semManager "e1" (Value.dict [("theme", Value.str "dark")])
    [("id", Value.str "c1")] ["user_data", "e2"] "preferences" (by decide)

/-- Claim C10: with a semantic store configured, a conversation missing the
`text` and `timestamp` keys is still written, with `text` defaulted to the
empty string and `timestamp` stored as `None` (no other default applied). -/
theorem missing_fields_defaults (m : DualStoreMemoryManager) (aid : String)
    (c : List (String × Value)) (s : SemanticStore) (hs : m.semantic_store = some s)
    (ht : c.find? (fun e => e.1 == "text") = Option.none)
    (hts : c.find? (fun e => e.1 == "timestamp") = Option.none) :
    ∃ t, (store_conversation_for_search m aid c).semantic_store = some t ∧
      t.puts = PutEntry.mk ["conversations", aid]
        ("conv_" ++ pyStr (dictGet c "id" (Value.str "unknown")))
        (Value.dict [("text", Value.str ""),
          ("topics", dictGet c "topics" (Value.list [])),
          ("timestamp", Value.none),
          ("sentiment", dictGet c "sentiment" (Value.str "neutral"))]) :: s.puts := by
  have hteq : dictGet c "text" (Value.str "") = Value.str "" := by simp [dictGet, ht]
  have htseq : dictGet c "timestamp" Value.none = Value.none := by simp [dictGet, hts]
  simp only [store_conversation_for_search, hs, hteq, htseq]
  exact ⟨_, rfl, rfl⟩

/-- Witness for claim C10 at a conversation carrying only an id. -/
theorem missing_fields_defaults_witness :
    ∃ t, (store_conversation_for_search semManager "e1"
        [("id", Value.str "c1")]).semantic_store = some t ∧
      t.puts = PutEntry.mk ["conversations", "e1"]
        ("conv_" ++ pyStr (dictGet [("id", Value.str "c1")] "id" (Value.str "unknown")))
        (Value.dict [("text", Value.str ""),
          ("topics", Value.list []),
          ("timestamp", Value.none),
          ("sentiment", Value.str "neutral")]) :: [] :=
  missing_fields_defaults semManager "e1" [("id", Value.str "c1")]
    { puts := [], search := emptySearch } rfl rfl rfl
